import Mathlib

/-!
Verification of the Memory Scramble board core (`src/board.py`).

The board state is embedded shallowly:

* `Card` mirrors the Python `Card` dataclass.
* `PlayerState` mirrors the Python `PlayerState` dataclass.  In the Python
  source `previous_controled_cards` stores aliases to the grid's `Card`
  objects; those aliases stay valid from grid construction until renewal,
  and renewal also clears the player registry, so positions are a faithful
  representation of the aliases here.
* `Board` mirrors the Python `Board` class; the grid (a list of rows of
  cards filled row-major from `initial_cards`) is stored as a flat
  row-major list, cell `(r, c)` living at index `r * cols + c`.

Python exceptions are rendered as `Except FlipErr`; an operation returns
its result together with the state it leaves behind (mutations made before
a raise persist, exactly as in the source).  Operations run under a single
board lock in the source, so one call is one atomic state transition here;
the rule 1-D wait loop, which in a run with no interleaved writer can only
poll until its budget expires, ends in `FlipErr.timeout`.
-/

structure Card where
  label : String
  face_up : Bool
  controller : Option String
  removed : Bool
deriving DecidableEq

structure PlayerState where
  controlled_cards : List (Nat × Nat)
  previous_controled_cards : List (Nat × Nat)
  matched : Bool
deriving DecidableEq

/-- A freshly constructed card: `Card(label=...)` with the dataclass defaults. -/
def mkCard (label : String) : Card :=
  { label := label, face_up := false, controller := none, removed := false }

/-- A freshly created player entry: the `PlayerState()` dataclass defaults. -/
def PlayerState.fresh : PlayerState :=
  { controlled_cards := [], previous_controled_cards := [], matched := false }

structure Board where
  rows : Nat
  cols : Nat
  initial_cards : List String
  grid : List Card
  players : List (String × PlayerState)
  version : Nat
deriving DecidableEq

/-- `_initialize_grid`: one fresh card per label, row-major. -/
def initGrid (cards : List String) : List Card :=
  cards.map mkCard

/-- `Board.__init__(rows, cols, cards)`. -/
def mkBoard (rows cols : Nat) (cards : List String) : Board :=
  { rows := rows, cols := cols, initial_cards := cards,
    grid := initGrid cards, players := [], version := 0 }

/-- `self.grid[r][c]` (row-major flat index). -/
def Board.cardAt (b : Board) (r c : Nat) : Card :=
  b.grid.getD (r * b.cols + c) (mkCard "")

/-- In-place update of `self.grid[r][c]`. -/
def Board.setCardAt (b : Board) (r c : Nat) (card : Card) : Board :=
  { b with grid := b.grid.set (r * b.cols + c) card }

/-- Field mutation of the card object at `(r, c)`. -/
def Board.modifyCardAt (b : Board) (r c : Nat) (f : Card → Card) : Board :=
  b.setCardAt r c (f (b.cardAt r c))

/-- `_notify_change`: `self.version += 1`. -/
def Board.notifyChange (b : Board) : Board :=
  { b with version := b.version + 1 }

/-- Python dict lookup `self.players[player_id]` (first match; ids are unique). -/
def lookupPlayer (ps : List (String × PlayerState)) (pid : String) : Option PlayerState :=
  match ps with
  | [] => none
  | (q, s) :: rest => if q = pid then some s else lookupPlayer rest pid

/-- Python dict assignment `self.players[player_id] = s`: replace in place,
or append a new entry at the end (dicts preserve insertion order). -/
def storePlayer (ps : List (String × PlayerState)) (pid : String) (s : PlayerState) :
    List (String × PlayerState) :=
  match ps with
  | [] => [(pid, s)]
  | (q, t) :: rest =>
    if q = pid then (q, s) :: rest else (q, t) :: storePlayer rest pid s

/-- The state `_get_player_state` returns (fresh defaults when absent). -/
def Board.getPlayer (b : Board) (pid : String) : PlayerState :=
  (lookupPlayer b.players pid).getD PlayerState.fresh

/-- The registry effect of `_get_player_state`: create the entry when absent. -/
def Board.ensurePlayer (b : Board) (pid : String) : Board :=
  match lookupPlayer b.players pid with
  | some _ => b
  | none => { b with players := b.players ++ [(pid, PlayerState.fresh)] }

/-- Store a player's state object back into the registry. -/
def Board.setPlayer (b : Board) (pid : String) (s : PlayerState) : Board :=
  { b with players := storePlayer b.players pid s }

/-- `_count_remaining_cards`: how many grid cells are not removed. -/
def Board.countRemaining (b : Board) : Nat :=
  (b.grid.filter (fun c => ¬ c.removed)).length

/-- `_renew_board`: rebuild the grid from `initial_cards`, clear the player
registry, and advance the version. -/
def Board.renewBoard (b : Board) : Board :=
  Board.notifyChange { b with grid := initGrid b.initial_cards, players := [] }

/-- One snapshot token per card, as emitted by `_look_internal`. -/
def renderCell (pid : String) (card : Card) : String :=
  if card.removed then "none"
  else if ¬ card.face_up then "down"
  else if card.controller = some pid then "my " ++ card.label
  else "up " ++ card.label

/-- The list `lines` built by `_look_internal`: the dimension header followed
by one token per grid cell in row-major order. -/
def Board.lookLines (b : Board) (pid : String) : List String :=
  (toString b.rows ++ "x" ++ toString b.cols) :: b.grid.map (renderCell pid)

/-- `_look_internal`: the lines joined with newlines. -/
def Board.lookInternal (b : Board) (pid : String) : String :=
  String.intercalate "\n" (b.lookLines pid)

/-- `look`: a pure read of the snapshot under the lock. -/
def Board.look (b : Board) (pid : String) : String × Board :=
  (b.lookInternal pid, b)

inductive FlipErr where
  /-- `ValueError("Invalid position ...")` raised on out-of-range coordinates. -/
  | invalidPosition
  /-- `ValueError("... Card has been removed")` (rules 1-A and 2-A). -/
  | cardRemoved
  /-- `ValueError("Card is controlled by another player")` (second-flip rules). -/
  | controlledByOther
  /-- `ValueError("Timeout waiting for card ...")` (rule 1-D budget). -/
  | timeout
deriving DecidableEq

/-- The loop at the top of `_flip_first_card`: every card object stashed in
`previous_controled_cards` gets `face_up = False` assigned, with no other
condition checked and no version advance. -/
def Board.dischargePrevious (b : Board) (pid : String) : Board :=
  (b.getPlayer pid).previous_controled_cards.foldl
    (fun acc pos => acc.modifyCardAt pos.1 pos.2 (fun c => { c with face_up := false })) b

/-- `_flip_first_card`: discharge the stashed previous cards, then resolve
rules 1-A to 1-D against the target card.  Rule 1-D's poll loop, with no
other writer interleaved, can only exhaust its budget, hence `timeout`. -/
def Board.flipFirstCard (b : Board) (pid : String) (row col : Nat) :
    Except FlipErr String × Board :=
  let b1 := b.dischargePrevious pid
  let card := b1.cardAt row col
  if card.removed then
    (Except.error FlipErr.cardRemoved, b1)
  else if ¬ card.face_up then
    let b2 := b1.modifyCardAt row col
      (fun c => { c with face_up := true, controller := some pid })
    let b3 := b2.setPlayer pid { b2.getPlayer pid with controlled_cards := [(row, col)] }
    let b4 := b3.notifyChange
    (Except.ok (b4.lookInternal pid), b4)
  else if card.controller = none then
    let b2 := b1.modifyCardAt row col (fun c => { c with controller := some pid })
    let b3 := b2.setPlayer pid { b2.getPlayer pid with controlled_cards := [(row, col)] }
    let b4 := b3.notifyChange
    (Except.ok (b4.lookInternal pid), b4)
  else
    (Except.error FlipErr.timeout, b1)

/-- `_flip_second_card`: rules 2-A, the source's own same-player rule, 2-B,
2-C and the match check, in the source's order. -/
def Board.flipSecondCard (b : Board) (pid : String) (row col : Nat) :
    Except FlipErr String × Board :=
  let st := b.getPlayer pid
  let card := b.cardAt row col
  let fp := st.controlled_cards.headD (0, 0)
  let firstCard := b.cardAt fp.1 fp.2
  if card.removed then
    let b1 := b.modifyCardAt fp.1 fp.2 (fun c => { c with controller := none })
    let b2 := b1.setPlayer pid { st with controlled_cards := [], matched := false }
    let b3 := b2.notifyChange
    (Except.error FlipErr.cardRemoved, b3)
  else if card.face_up ∧ card.controller = some pid then
    (Except.error FlipErr.controlledByOther, b)
  else if card.face_up ∧ card.controller ≠ none then
    let b1 := b.modifyCardAt fp.1 fp.2 (fun c => { c with controller := none })
    let b2 := b1.setPlayer pid { st with controlled_cards := [], matched := false }
    let b3 := b2.notifyChange
    (Except.error FlipErr.controlledByOther, b3)
  else
    let b1 :=
      if ¬ card.face_up then
        Board.notifyChange (b.modifyCardAt row col (fun c => { c with face_up := true }))
      else b
    if firstCard.label = card.label then
      let b2 := b1.modifyCardAt row col (fun c => { c with controller := some pid })
      let b3 := b2.setPlayer pid
        { st with controlled_cards := [fp, (row, col)], matched := true }
      let b4 := b3.notifyChange
      (Except.ok (b4.lookInternal pid), b4)
    else
      let b2 := b1.modifyCardAt fp.1 fp.2 (fun c => { c with controller := none })
      let b3 := b2.modifyCardAt row col (fun c => { c with controller := none })
      let b4 := b3.setPlayer pid
        { st with previous_controled_cards := [fp, (row, col)],
                  controlled_cards := [], matched := false }
      let b5 := b4.notifyChange
      (Except.ok (b5.lookInternal pid), b5)

/-- `_turn_down_card` (the source's "Rule 3-B"): each currently controlled
position is turned face-down only when still present, face-up and
uncontrolled, advancing the version per change. -/
def Board.turnDownCard (b : Board) (pid : String) : Board :=
  (b.getPlayer pid).controlled_cards.foldl
    (fun acc pos =>
      let card := acc.cardAt pos.1 pos.2
      if ¬ card.removed ∧ card.face_up ∧ card.controller = none then
        Board.notifyChange (acc.setCardAt pos.1 pos.2 { card with face_up := false })
      else acc) b

/-- `_cleanup_previous_cards` (the source's "Rule 3-A"): remove each
currently controlled position that is not already removed, advancing the
version per change.  The `controlled_cards` list itself is not cleared. -/
def Board.cleanupPreviousCards (b : Board) (pid : String) : Board :=
  (b.getPlayer pid).controlled_cards.foldl
    (fun acc pos =>
      let card := acc.cardAt pos.1 pos.2
      if ¬ card.removed then
        Board.notifyChange
          (acc.setCardAt pos.1 pos.2
            { card with removed := true, face_up := false, controller := none })
      else acc) b

/-- The body of `flip` after the renewal check: fetch the player's state and
dispatch on how many cards the player controls. -/
def Board.flipAux (b : Board) (pid : String) (row col : Nat) :
    Except FlipErr String × Board :=
  let b0 := b.ensurePlayer pid
  let st := b0.getPlayer pid
  if st.controlled_cards.length = 0 then
    b0.flipFirstCard pid row col
  else if st.controlled_cards.length = 1 then
    b0.flipSecondCard pid row col
  else
    let b1 := b0.turnDownCard pid
    let b2 := if st.matched then b1.cleanupPreviousCards pid else b1
    b2.flipFirstCard pid row col

/-- `flip`: bounds check first, then the renewal check, then the dispatch. -/
def Board.flip (b : Board) (pid : String) (row col : Nat) :
    Except FlipErr String × Board :=
  if row < b.rows ∧ col < b.cols then
    let b1 := if b.countRemaining ≤ 1 then b.renewBoard else b
    b1.flipAux pid row col
  else
    (Except.error FlipErr.invalidPosition, b)

/-- `map_cards`: rewrite the label of every non-removed card with the
transform, publish one version advance at the end, return the snapshot. -/
def Board.mapCards (b : Board) (pid : String) (f : String → String) :
    String × Board :=
  let g := fun (c : Card) => if ¬ c.removed then { c with label := f c.label } else c
  let b1 := { b with grid := b.grid.map g }
  let b2 := b1.notifyChange
  (b2.lookInternal pid, b2)

/-- `watch`: `b0` is the board when the call captures `start_version`,
`polls` lists the board state at each successive poll instant inside the
timeout budget, and `bEnd` is the state when the budget expires.  The loop
returns the snapshot at the first poll that sees a changed version, or the
snapshot at timeout. -/
def Board.watch (pid : String) (b0 : Board) (polls : List Board) (bEnd : Board) : String :=
  match polls with
  | [] => bEnd.lookInternal pid
  | s :: rest =>
    if s.version ≠ b0.version then s.lookInternal pid
    else Board.watch pid b0 rest bEnd

/-! ### Helper lemmas -/

theorem getD_set_self {α : Type} :
    ∀ (l : List α) (i : Nat) (a d : α), i < l.length → (l.set i a).getD i d = a := by
  intro l
  induction l with
  | nil => intro i a d h; simp at h
  | cons x xs ih =>
    intro i a d h
    cases i with
    | zero => rfl
    | succ n => exact ih n a d (by simpa using h)

theorem lookupPlayer_storePlayer_self (ps : List (String × PlayerState))
    (pid : String) (s : PlayerState) :
    lookupPlayer (storePlayer ps pid s) pid = some s := by
  induction ps with
  | nil => simp [storePlayer, lookupPlayer]
  | cons p rest ih =>
    obtain ⟨q, t⟩ := p
    by_cases h : q = pid
    · simp [storePlayer, lookupPlayer, h]
    · simp [storePlayer, lookupPlayer, h, ih]

theorem getPlayer_setPlayer_self (b : Board) (pid : String) (s : PlayerState) :
    (b.setPlayer pid s).getPlayer pid = s := by
  simp [Board.getPlayer, Board.setPlayer, lookupPlayer_storePlayer_self]

theorem lookupPlayer_of_controlled_ne_nil (b : Board) (pid : String)
    (h : (b.getPlayer pid).controlled_cards ≠ []) :
    lookupPlayer b.players pid = some (b.getPlayer pid) := by
  unfold Board.getPlayer at *
  cases hl : lookupPlayer b.players pid with
  | some s => simp [hl]
  | none => rw [hl] at h; simp [PlayerState.fresh] at h

theorem ensurePlayer_of_lookup_some (b : Board) (pid : String) (s : PlayerState)
    (h : lookupPlayer b.players pid = some s) : b.ensurePlayer pid = b := by
  unfold Board.ensurePlayer
  rw [h]

/-! ### Claim theorems -/

/-- C10: `look` is a pure read: it returns the board unchanged (grid, player
registry and version counter included), so a second consecutive `look` by the
same player yields the same snapshot, and the version after equals the
version before. -/
theorem look_leaves_state_unchanged (b : Board) (pid : String) :
    (b.look pid).2 = b
  ∧ (((b.look pid).2).look pid).1 = (b.look pid).1
  ∧ ((b.look pid).2).version = b.version :=
  ⟨rfl, rfl, rfl⟩

/-- C6: `map_cards` rewrites the label of every non-removed card with the
transform and changes nothing else: dimensions, player registry (hence every
player's controlled set and matched flag) are untouched, every card keeps its
`face_up`, `controller` and `removed` fields, removed cards keep their label,
and the version counter advances by exactly one. -/
theorem map_cards_frame (b : Board) (pid : String) (f : String → String) :
    ((b.mapCards pid f).2.rows = b.rows)
  ∧ ((b.mapCards pid f).2.cols = b.cols)
  ∧ ((b.mapCards pid f).2.players = b.players)
  ∧ ((b.mapCards pid f).2.version = b.version + 1)
  ∧ ((b.mapCards pid f).2.grid.length = b.grid.length)
  ∧ ∀ i : Nat, (b.mapCards pid f).2.grid[i]? =
      (b.grid[i]?).map (fun (c : Card) =>
        { c with label := if c.removed then c.label else f c.label }) := by
  refine ⟨rfl, rfl, rfl, rfl, by simp [Board.mapCards, Board.notifyChange], ?_⟩
  intro i
  simp only [Board.mapCards, Board.notifyChange, List.getElem?_map]
  cases hgi : b.grid[i]? with
  | none => rfl
  | some c =>
    by_cases hc : c.removed
    · cases c; simp_all
    · simp [hc]

/-- C9: the snapshot consists of the header line `<rows>x<cols>` followed by
one line per grid cell in row-major order, each rendered `"none"` when the
card is removed, `"down"` when face-down, `"my <label>"` when face-up and
controlled by the requesting player, and `"up <label>"` otherwise. -/
theorem look_snapshot_format (b : Board) (pid : String) (r c : Nat)
    (hwf : b.grid.length = b.rows * b.cols) (hr : r < b.rows) (hc : c < b.cols) :
    (b.look pid).1 = String.intercalate "\n" (b.lookLines pid)
  ∧ (b.lookLines pid).length = 1 + b.rows * b.cols
  ∧ (b.lookLines pid).head? = some (toString b.rows ++ "x" ++ toString b.cols)
  ∧ (b.lookLines pid)[1 + (r * b.cols + c)]? =
      some (if (b.cardAt r c).removed then "none"
        else if ¬ (b.cardAt r c).face_up then "down"
        else if (b.cardAt r c).controller = some pid then "my " ++ (b.cardAt r c).label
        else "up " ++ (b.cardAt r c).label) := by
  have hidx : r * b.cols + c < b.grid.length := by
    rw [hwf]
    have h1 : r * b.cols + c < (r + 1) * b.cols := by
      rw [Nat.succ_mul]; omega
    have h2 : (r + 1) * b.cols ≤ b.rows * b.cols :=
      Nat.mul_le_mul_right _ hr
    omega
  refine ⟨rfl, by simp [Board.lookLines, hwf]; omega, rfl, ?_⟩
  have h3 : (b.lookLines pid)[1 + (r * b.cols + c)]? =
      (b.grid.map (renderCell pid))[r * b.cols + c]? := by
    rw [Nat.add_comm 1 (r * b.cols + c)]
    simp [Board.lookLines]
  rw [h3, List.getElem?_map, List.getElem?_eq_getElem hidx]
  have h4 : b.cardAt r c = b.grid[r * b.cols + c] := by
    rw [Board.cardAt, List.getD_eq_getElem b.grid _ hidx]
  rw [← h4]
  rfl

def wB9 : Board := mkBoard 1 1 ["A"]

theorem look_snapshot_format_witness :
    (wB9.grid.length = wB9.rows * wB9.cols ∧ 0 < wB9.rows ∧ 0 < wB9.cols)
  ∧ ((wB9.look "P").1 = String.intercalate "\n" (wB9.lookLines "P")
     ∧ (wB9.lookLines "P").length = 1 + wB9.rows * wB9.cols
     ∧ (wB9.lookLines "P").head? = some (toString wB9.rows ++ "x" ++ toString wB9.cols)
     ∧ (wB9.lookLines "P")[1 + (0 * wB9.cols + 0)]? =
         some (if (wB9.cardAt 0 0).removed then "none"
           else if ¬ (wB9.cardAt 0 0).face_up then "down"
           else if (wB9.cardAt 0 0).controller = some "P" then "my " ++ (wB9.cardAt 0 0).label
           else "up " ++ (wB9.cardAt 0 0).label)) :=
  ⟨⟨by decide, by decide, by decide⟩,
    look_snapshot_format wB9 "P" 0 0 (by decide) (by decide) (by decide)⟩

/-- C5: a flip issued while at most one non-removed card remains first renews
the board — the flip rules then run on the renewed state — and renewal
rebuilds every card from its initial label with the dataclass defaults
(face-down, no controller, not removed), empties the player registry, and
sets the version to exactly one more than before. -/
theorem flip_renews_board_when_low (b : Board) (pid : String) (row col : Nat)
    (hr : row < b.rows) (hc : col < b.cols) (hcount : b.countRemaining ≤ 1) :
    b.flip pid row col = (b.renewBoard).flipAux pid row col
  ∧ (b.renewBoard).version = b.version + 1
  ∧ (b.renewBoard).players = []
  ∧ (b.renewBoard).rows = b.rows ∧ (b.renewBoard).cols = b.cols
  ∧ ∀ i : Nat, (b.renewBoard).grid[i]? = (b.initial_cards[i]?).map
      (fun l => { label := l, face_up := false, controller := none, removed := false }) := by
  refine ⟨by simp [Board.flip, hr, hc, hcount], rfl, rfl, rfl, rfl, ?_⟩
  intro i
  simp only [Board.renewBoard, Board.notifyChange, initGrid, List.getElem?_map]
  cases b.initial_cards[i]? <;> rfl

def wB5 : Board := mkBoard 1 1 ["A"]

theorem flip_renews_board_when_low_witness :
    (0 < wB5.rows ∧ 0 < wB5.cols ∧ wB5.countRemaining ≤ 1)
  ∧ (wB5.flip "P" 0 0 = (wB5.renewBoard).flipAux "P" 0 0
     ∧ (wB5.renewBoard).version = wB5.version + 1
     ∧ (wB5.renewBoard).players = []
     ∧ (wB5.renewBoard).rows = wB5.rows ∧ (wB5.renewBoard).cols = wB5.cols
     ∧ ∀ i : Nat, (wB5.renewBoard).grid[i]? = (wB5.initial_cards[i]?).map
         (fun l => { label := l, face_up := false, controller := none, removed := false })) :=
  ⟨⟨by decide, by decide, by decide⟩,
    flip_renews_board_when_low wB5 "P" 0 0 (by decide) (by decide) (by decide)⟩

/-- C4: a player in Phase B who flips the very card they already control hits
the source's same-player rule: the flip fails with `ControlledByOther`, the
board is returned untouched — the first card keeps its controller, the
player's controlled set still holds exactly that position, and the version
counter does not advance. -/
theorem flip_same_card_fails_keeps_state (b : Board) (pid : String) (fr fc : Nat)
    (hr : fr < b.rows) (hc : fc < b.cols)
    (hcount : 2 ≤ b.countRemaining)
    (hst : (b.getPlayer pid).controlled_cards = [(fr, fc)])
    (hfu : (b.cardAt fr fc).face_up = true)
    (hctl : (b.cardAt fr fc).controller = some pid)
    (hrem : (b.cardAt fr fc).removed = false) :
    b.flip pid fr fc = (Except.error FlipErr.controlledByOther, b)
  ∧ ((b.flip pid fr fc).2.cardAt fr fc).controller = some pid
  ∧ ((b.flip pid fr fc).2.getPlayer pid).controlled_cards = [(fr, fc)]
  ∧ (b.flip pid fr fc).2.version = b.version := by
  have hlk : lookupPlayer b.players pid = some (b.getPlayer pid) :=
    lookupPlayer_of_controlled_ne_nil b pid (by rw [hst]; simp)
  have hens : b.ensurePlayer pid = b := ensurePlayer_of_lookup_some b pid _ hlk
  have hnc : ¬ b.countRemaining ≤ 1 := by omega
  have hmain : b.flip pid fr fc = (Except.error FlipErr.controlledByOther, b) := by
    simp [Board.flip, hr, hc, hnc, Board.flipAux, hens, hst, Board.flipSecondCard,
      hfu, hctl, hrem]
  exact ⟨hmain, by rw [hmain]; exact hctl, by rw [hmain]; exact hst, by rw [hmain]⟩

def wB4 : Board := ((mkBoard 1 2 ["A", "B"]).flip "P1" 0 0).2

theorem flip_same_card_fails_keeps_state_witness :
    (0 < wB4.rows ∧ 0 < wB4.cols ∧ 2 ≤ wB4.countRemaining
     ∧ (wB4.getPlayer "P1").controlled_cards = [(0, 0)]
     ∧ (wB4.cardAt 0 0).face_up = true
     ∧ (wB4.cardAt 0 0).controller = some "P1"
     ∧ (wB4.cardAt 0 0).removed = false)
  ∧ (wB4.flip "P1" 0 0 = (Except.error FlipErr.controlledByOther, wB4)
     ∧ ((wB4.flip "P1" 0 0).2.cardAt 0 0).controller = some "P1"
     ∧ ((wB4.flip "P1" 0 0).2.getPlayer "P1").controlled_cards = [(0, 0)]
     ∧ (wB4.flip "P1" 0 0).2.version = wB4.version) :=
  ⟨⟨by decide, by decide, by decide, by decide, by decide, by decide, by decide⟩,
    flip_same_card_fails_keeps_state wB4 "P1" 0 0 (by decide) (by decide) (by decide)
      (by decide) (by decide) (by decide) (by decide)⟩

/-- C7: a Phase-B flip whose target card is removed fails with `CardRemoved`
and leaves behind a state in which the first card's controller is cleared,
the player's controlled sequence is empty, the matched flag is false, and
the version counter has advanced. -/
theorem flip_second_removed_relinquishes (b : Board) (pid : String) (row col fr fc : Nat)
    (hr : row < b.rows) (hc : col < b.cols)
    (hcount : 2 ≤ b.countRemaining)
    (hst : (b.getPlayer pid).controlled_cards = [(fr, fc)])
    (hrem : (b.cardAt row col).removed = true)
    (hfr : fr * b.cols + fc < b.grid.length) :
    (b.flip pid row col).1 = Except.error FlipErr.cardRemoved
  ∧ (b.flip pid row col).2.version = b.version + 1
  ∧ ((b.flip pid row col).2.cardAt fr fc).controller = none
  ∧ (b.flip pid row col).2.getPlayer pid =
      { b.getPlayer pid with controlled_cards := [], matched := false } := by
  have hlk : lookupPlayer b.players pid = some (b.getPlayer pid) :=
    lookupPlayer_of_controlled_ne_nil b pid (by rw [hst]; simp)
  have hens : b.ensurePlayer pid = b := ensurePlayer_of_lookup_some b pid _ hlk
  have hnc : ¬ b.countRemaining ≤ 1 := by omega
  have key : b.flip pid row col =
      (Except.error FlipErr.cardRemoved,
        Board.notifyChange
          ((b.modifyCardAt fr fc (fun c => { c with controller := none })).setPlayer pid
            { b.getPlayer pid with controlled_cards := [], matched := false })) := by
    simp [Board.flip, hr, hc, hnc, Board.flipAux, hens, hst, Board.flipSecondCard, hrem]
  rw [key]
  refine ⟨rfl, rfl, ?_, ?_⟩
  · show ((b.modifyCardAt fr fc (fun c => { c with controller := none })).cardAt fr fc).controller = none
    rw [Board.modifyCardAt, Board.setCardAt, Board.cardAt]
    show ((b.grid.set (fr * b.cols + fc) _).getD (fr * b.cols + fc) (mkCard "")).controller = none
    rw [getD_set_self _ _ _ _ hfr]
  · exact getPlayer_setPlayer_self _ pid _

def wB7 : Board :=
  { rows := 1, cols := 3, initial_cards := ["A", "B", "C"],
    grid := [{ label := "A", face_up := true, controller := some "P1", removed := false },
             { label := "B", face_up := false, controller := none, removed := true },
             { label := "C", face_up := false, controller := none, removed := false }],
    players := [("P1", { controlled_cards := [(0, 0)],
                         previous_controled_cards := [], matched := false })],
    version := 7 }

theorem flip_second_removed_relinquishes_witness :
    (0 < wB7.rows ∧ 1 < wB7.cols ∧ 2 ≤ wB7.countRemaining
     ∧ (wB7.getPlayer "P1").controlled_cards = [(0, 0)]
     ∧ (wB7.cardAt 0 1).removed = true
     ∧ 0 * wB7.cols + 0 < wB7.grid.length)
  ∧ ((wB7.flip "P1" 0 1).1 = Except.error FlipErr.cardRemoved
     ∧ (wB7.flip "P1" 0 1).2.version = wB7.version + 1
     ∧ ((wB7.flip "P1" 0 1).2.cardAt 0 0).controller = none
     ∧ (wB7.flip "P1" 0 1).2.getPlayer "P1" =
         { wB7.getPlayer "P1" with controlled_cards := [], matched := false }) :=
  ⟨⟨by decide, by decide, by decide, by decide, by decide, by decide⟩,
    flip_second_removed_relinquishes wB7 "P1" 0 1 0 0 (by decide) (by decide)
      (by decide) (by decide) (by decide) (by decide)⟩

theorem watch_cases (pid : String) (b0 bEnd : Board) :
    ∀ polls : List Board,
    ((∀ s ∈ polls, s.version = b0.version)
       ∧ Board.watch pid b0 polls bEnd = bEnd.lookInternal pid)
  ∨ (∃ pre s suf, polls = pre ++ s :: suf
       ∧ (∀ t ∈ pre, t.version = b0.version)
       ∧ s.version ≠ b0.version
       ∧ Board.watch pid b0 polls bEnd = s.lookInternal pid) := by
  intro polls
  induction polls with
  | nil => exact Or.inl ⟨by simp, rfl⟩
  | cons s rest ih =>
    by_cases h : s.version = b0.version
    · have hw : Board.watch pid b0 (s :: rest) bEnd = Board.watch pid b0 rest bEnd := by
        simp [Board.watch, h]
      rcases ih with ⟨hall, heq⟩ | ⟨pre, s', suf, hsplit, hpre, hne, heq⟩
      · refine Or.inl ⟨?_, by rw [hw, heq]⟩
        intro t ht
        rcases List.mem_cons.mp ht with rfl | ht'
        · exact h
        · exact hall t ht'
      · refine Or.inr ⟨s :: pre, s', suf, by rw [hsplit]; rfl, ?_, hne, by rw [hw, heq]⟩
        intro t ht
        rcases List.mem_cons.mp ht with rfl | ht'
        · exact h
        · exact hpre t ht'
    · refine Or.inr ⟨[], s, rest, rfl, by simp, h, by simp [Board.watch, h]⟩

/-- C8: `watch` never fails — it always returns a snapshot.  Over any trace
of poll-time states whose versions never run below the captured version
`v₀ = b0.version` (the counter is monotone), either no poll saw a change and
the snapshot rendered is the one of the state at timeout, or the snapshot
rendered is that of the first polled state whose version exceeds `v₀`. -/
theorem watch_first_change_or_timeout (pid : String) (b0 bEnd : Board)
    (polls : List Board)
    (hmono : ∀ s ∈ polls, b0.version ≤ s.version) :
    ((∀ s ∈ polls, s.version = b0.version)
       ∧ Board.watch pid b0 polls bEnd = bEnd.lookInternal pid)
  ∨ (∃ pre s suf, polls = pre ++ s :: suf
       ∧ (∀ t ∈ pre, t.version = b0.version)
       ∧ b0.version < s.version
       ∧ Board.watch pid b0 polls bEnd = s.lookInternal pid) := by
  rcases watch_cases pid b0 bEnd polls with h | ⟨pre, s, suf, hsplit, hpre, hne, heq⟩
  · exact Or.inl h
  · refine Or.inr ⟨pre, s, suf, hsplit, hpre, ?_, heq⟩
    have hs : s ∈ polls := by
      rw [hsplit]
      exact List.mem_append_right _ (List.mem_cons_self _ _)
    exact lt_of_le_of_ne (hmono s hs) (Ne.symm hne)

def wB8 : Board := mkBoard 1 1 ["A"]

def wB8p : Board := wB8.notifyChange

theorem watch_first_change_or_timeout_witness :
    (∀ s ∈ [wB8p], wB8.version ≤ s.version)
  ∧ (((∀ s ∈ [wB8p], s.version = wB8.version)
        ∧ Board.watch "P" wB8 [wB8p] wB8p = wB8p.lookInternal "P")
     ∨ (∃ pre s suf, [wB8p] = pre ++ s :: suf
        ∧ (∀ t ∈ pre, t.version = wB8.version)
        ∧ wB8.version < s.version
        ∧ Board.watch "P" wB8 [wB8p] wB8p = s.lookInternal "P")) :=
  ⟨by decide, watch_first_change_or_timeout "P" wB8 wB8p [wB8p] (by decide)⟩

/-!
### The no-match discharge divergence (claims about invariants)

Starting from `Board(2, 2, ["A","B","A","B"])`: player P1 flips `(0,0)`
(rule 1-B), then `(0,1)` (no match, rule 2-E: both cards stay face-up and
uncontrolled, the pair is stashed in `previous_controled_cards`); player P2
then claims `(0,0)` (rule 1-C: face-up, controller P2); finally P1 flips the
face-down card `(1,0)`, whose first-flip logic runs the unconditional
`face_up = False` loop over the stashed pair.
-/

def sb0 : Board := mkBoard 2 2 ["A", "B", "A", "B"]

def sb1 : Board := (sb0.flip "P1" 0 0).2

def sb2 : Board := (sb1.flip "P1" 0 1).2

def sb3 : Board := (sb2.flip "P2" 0 0).2

def sb4 : Board := (sb3.flip "P1" 1 0).2

/-- C1: the claim fails on the code.  After P1's no-match pair `(0,0)/(0,1)`,
card `(0,0)` has been claimed by P2 (face-up, controller P2) and P1's next
first flip lands on the legal face-down card `(1,0)` and succeeds; yet the
code turns `(0,0)` face-down all the same — the card claimed by another
player in the meantime is not left alone. -/
theorem noMatch_discharge_flips_claimed_card :
    (sb3.getPlayer "P1").controlled_cards = []
  ∧ (sb3.getPlayer "P1").previous_controled_cards = [(0, 0), (0, 1)]
  ∧ (sb3.cardAt 0 0).face_up = true
  ∧ (sb3.cardAt 0 0).controller = some "P2"
  ∧ ((sb3.flip "P1" 1 0).1).isOk = true
  ∧ (sb4.cardAt 0 0).face_up = false
  ∧ (sb4.cardAt 0 0).controller = some "P2" := by
  decide

/-- C2: the claim fails on the code.  The same four operations end with card
`(0,0)` having a present controller (P2) while lying face-down, so the
invariant `controller present ⇒ face_up` does not survive every operation. -/
theorem controller_present_faceup_violated :
    ((sb3.flip "P1" 1 0).1).isOk = true
  ∧ (sb4.cardAt 0 0).controller = some "P2"
  ∧ (sb4.cardAt 0 0).face_up = false := by
  decide

/-!
### The dangling controlled list (claim C3)

Starting from `Board(2, 2, ["A","A","B","B"])`, P1 matches `(0,0)/(0,1)`,
then matches `(1,0)/(1,1)` (the first pair is removed on the way), and
finally flips the now-removed `(0,0)`: the Phase-C cleanup removes the
second pair and clears the cards' controllers but not the player's
`controlled_cards` list, and the flip then fails on rule 1-A.
-/

def tb0 : Board := mkBoard 2 2 ["A", "A", "B", "B"]

def tb1 : Board := (tb0.flip "P1" 0 0).2

def tb2 : Board := (tb1.flip "P1" 0 1).2

def tb3 : Board := (tb2.flip "P1" 1 0).2

def tb4 : Board := (tb3.flip "P1" 1 1).2

/-- C3: the claim fails on the code.  After the fifth flip completes (with
the `CardRemoved` error), P1's controlled sequence still holds `(1,0)` and
`(1,1)`, but both cards' controllers have been cleared by the cleanup — the
positions no longer refer to cards controlled by P1. -/
theorem controlled_refs_invariant_violated :
    (tb4.getPlayer "P1").controlled_cards = [(1, 0), (1, 1)]
  ∧ (tb4.flip "P1" 0 0).1 = Except.error FlipErr.cardRemoved
  ∧ ((tb4.flip "P1" 0 0).2.getPlayer "P1").controlled_cards = [(1, 0), (1, 1)]
  ∧ ((tb4.flip "P1" 0 0).2.cardAt 1 0).controller = none
  ∧ ((tb4.flip "P1" 0 0).2.cardAt 1 1).controller = none :=
  ⟨by decide, rfl, by decide, by decide, by decide⟩
